import Mathlib

/-!
Shallow embedding of `src/boktest.py` (the Scope3 Campaign API agent script).

The `main` coroutine of the script (lines 31-103) is modelled as a pure function
from an environment (the process environment, `os.getenv`) and a *world*
(the outcomes of the external, opaque calls: `client.get_tools()` and each
per-turn `input()` / `agent.ainvoke(...)`) to the list of observable
effects (stdout writes, object constructions, network-touching operations)
plus a final outcome.

Conventions:
 - Each `print(x)` in Python writes `x ++ "\n"`; `input("You: ")` writes
   the prompt `"You: "` before blocking.  Both are recorded as
   `Effect.write` of the exact byte string.
 - Python truthiness of `os.getenv` results (`if not scope3_key:`) is
   `falsy`: `None` and the empty string are falsy.
 - `except Exception` does not catch `KeyboardInterrupt`; the two handler
   arms of the loop (lines 98-103) are modelled by distinguishing
   `AgentOutcome.interrupt` / `InputEvent.interrupt` from generic
   exceptions, exactly as CPython dispatches them.
 - `input()` at end of file raises `EOFError`, an `Exception`, whose
   `str()` is `"EOF when reading a line"` in CPython.
 - indexing the reply message list at -1 when it is empty raises `IndexError`
   (`"list index out of range"`), an `Exception`, hence caught by the
   generic handler.
-/

namespace Boktest

/-- Configuration of one named MCP server entry, as passed to
`MultiServerMCPClient` (lines 51-61). -/
structure ServerConfig where
  transport : String
  url : String
  headers : List (String × String)
deriving DecidableEq, Repr

/-- The MCP client object: it records the server-configuration mapping it
was constructed with (here a single-entry association list). -/
structure MultiServerMCPClient where
  servers : List (String × ServerConfig)
deriving DecidableEq, Repr

/-- The `ChatAnthropic` model object, recording the keyword arguments of
its construction (lines 64-69). -/
structure ChatAnthropic where
  model : String
  anthropic_api_key : String
  temperature : Nat
  max_tokens : Nat
deriving DecidableEq, Repr

/-- A message in the reply sequence of the agent; the orchestrator only reads
its `content` field (line 95). -/
structure Message where
  content : String
deriving DecidableEq, Repr

/-- The react agent object returned by `create_react_agent(model, tools)`
(line 76): it binds the model and the discovered tool list. -/
structure Agent (Tool : Type) where
  model : ChatAnthropic
  tools : List Tool

/-- Binding of model and tools performed by `create_react_agent(model,
tools)` on line 76; nothing else is observable at this layer. -/
def create_react_agent (Tool : Type) (model : ChatAnthropic) (tools : List Tool) :
    Agent Tool :=
  ⟨model, tools⟩

/-- The client construction of lines 51-61: one named endpoint
`"scope3"`, streamable-http transport, fixed URL, single bearer header. -/
def mkScope3Client (scope3_key : String) : MultiServerMCPClient :=
  { servers :=
      [("scope3",
        { transport := "streamable_http"
          url := "https://api.agentic.scope3.com/mcp"
          headers := [("Authorization", "Bearer " ++ scope3_key)] })] }

/-- The model construction of lines 64-69. -/
def mkClaudeModel (anthropic_key : String) : ChatAnthropic :=
  { model := "claude-3-5-sonnet-20241022"
    anthropic_api_key := anthropic_key
    temperature := 0
    max_tokens := 4096 }

/-- The exit keywords of line 87 (lowercase quit, exit, bye). -/
def exit_keywords : List String := ["quit", "exit", "bye"]

/-- Python `str.lower()` (ASCII range, which covers the exit keywords):
character-wise lowercasing. -/
def lower (s : String) : String := ⟨s.data.map Char.toLower⟩

/-- Python `str.strip()`: remove leading and trailing whitespace.  The
script never calls it; it is needed to state the "trimmed"
matching claim. -/
def strip (s : String) : String :=
  ⟨((s.data.dropWhile Char.isWhitespace).reverse.dropWhile
      Char.isWhitespace).reverse⟩

/-- Python truthiness test `not key` for an `os.getenv` result:
`None` and `""` are falsy (lines 38, 43). -/
def falsy : Option String → Bool
  | none => true
  | some s => s.isEmpty

/-- What `input("You: ")` produced on a given turn: a line of text, an
`EOFError` (end of standard input), or a `KeyboardInterrupt` delivered
while blocked on input. -/
inductive InputEvent where
  | line (s : String)
  | eof
  | interrupt
deriving DecidableEq, Repr

/-- What `await agent.ainvoke({"messages": user_input})` produced, when it
was invoked: a reply carrying a message sequence, a generic `Exception`
with a description (its `str()`), or a `KeyboardInterrupt` delivered while
awaiting the response. -/
inductive AgentOutcome where
  | reply (messages : List Message)
  | exc (description : String)
  | interrupt
deriving DecidableEq, Repr

/-- Observable effects of the orchestrator, in program order. -/
inductive Effect (Tool : Type) where
  | write (s : String)
  | mkClientE (c : MultiServerMCPClient)
  | mkModelE (m : ChatAnthropic)
  | getTools
  | mkAgentE (m : ChatAnthropic) (tools : List Tool)
  | invoke (payload : String)
deriving DecidableEq

/-- Whether the loop is still alive when the supplied event trace runs
out (`running`), or the loop executed a `break` (`terminated`). -/
inductive LoopStatus where
  | running
  | terminated
deriving DecidableEq, Repr

/-- The CPython message of the `EOFError` raised by `input()` at EOF. -/
def eofMessage : String := "EOF when reading a line"

/-- The CPython message of the `IndexError` raised by indexing an empty list. -/
def indexErrorMessage : String := "list index out of range"

/-- One iteration of the `while True:` loop (lines 83-103), given the
input event of the turn and (if the agent is reached) the agent outcome.
Returns the effects of the iteration and whether the loop continues. -/
def runTurn (Tool : Type) (ev : InputEvent × AgentOutcome) :
    List (Effect Tool) × Bool :=
  match ev with
  | (.interrupt, _) =>
      -- `except KeyboardInterrupt:` (lines 98-100) after the prompt write
      ([.write "You: ", .write "\nGoodbye!\n"], false)
  | (.eof, _) =>
      -- EOFError from input() is an Exception: generic handler, lines 101-103
      ([.write "You: ", .write ("\nError: " ++ eofMessage ++ "\n"),
        .write "Please try again or type 'quit' to exit.\n\n"], true)
  | (.line s, ao) =>
      if lower s ∈ exit_keywords then
        -- lines 87-89: no trimming is applied to `user_input`
        ([.write "You: ", .write "Goodbye!\n"], false)
      else
        match ao with
        | .reply msgs =>
            match msgs.getLast? with
            | some m =>
                -- lines 92-96
                ([.write "You: ", .invoke s,
                  .write ("\nAgent: " ++ m.content ++ "\n\n")], true)
            | none =>
                -- indexing the empty message list raises IndexError: lines 101-103
                ([.write "You: ", .invoke s,
                  .write ("\nError: " ++ indexErrorMessage ++ "\n"),
                  .write "Please try again or type 'quit' to exit.\n\n"], true)
        | .exc d =>
            -- lines 101-103
            ([.write "You: ", .invoke s,
              .write ("\nError: " ++ d ++ "\n"),
              .write "Please try again or type 'quit' to exit.\n\n"], true)
        | .interrupt =>
            -- KeyboardInterrupt while awaiting ainvoke: lines 98-100
            ([.write "You: ", .invoke s, .write "\nGoodbye!\n"], false)

/-- The whole `while True:` loop over a finite trace of turn events. -/
def runLoop (Tool : Type) :
    List (InputEvent × AgentOutcome) → List (Effect Tool) × LoopStatus
  | [] => ([], .running)
  | ev :: rest =>
      let r := runTurn Tool ev
      if r.2 then
        let k := runLoop Tool rest
        (r.1 ++ k.1, k.2)
      else
        (r.1, .terminated)

/-- The outcomes of the external operations `main` performs: the result
of the one-time `client.get_tools()` call (`Except.error` models a raised
exception carrying its description) and the per-turn events of the loop. -/
structure World (Tool : Type) where
  tools : Except String (List Tool)
  trace : List (InputEvent × AgentOutcome)

/-- How `main` ended: an early `return` from credential validation
(lines 38-46), an exception propagating unhandled out of `main`
(the `get_tools` call sits outside the try block of the loop), or the loop was
reached and either terminated or is still running when the trace ends. -/
inductive MainOutcome where
  | earlyReturn
  | unhandled (description : String)
  | finished (st : LoopStatus)
deriving DecidableEq, Repr

/-- The `main` coroutine, lines 31-103. -/
def main (Tool : Type) (env : String → Option String) (w : World Tool) :
    List (Effect Tool) × MainOutcome :=
  let scope3_key := env "SCOPE3_API_KEY"
  let anthropic_key := env "ANTHROPIC_API_KEY"
  if falsy scope3_key then
    ([.write "Error: SCOPE3_API_KEY not found in .env file\n",
      .write "Please add your Scope3 API key to the .env file\n"],
     .earlyReturn)
  else if falsy anthropic_key then
    ([.write "Error: ANTHROPIC_API_KEY not found in .env file\n",
      .write "Please add your Anthropic API key to the .env file\n"],
     .earlyReturn)
  else
    let sk := scope3_key.getD ""
    let ak := anthropic_key.getD ""
    let client := mkScope3Client sk
    let model := mkClaudeModel ak
    let pre : List (Effect Tool) :=
      [.write "Connecting to Scope3 Campaign API...\n",
       .mkClientE client,
       .mkModelE model,
       .getTools]
    match w.tools with
    | .error d => (pre, .unhandled d)
    | .ok tools =>
        let post : List (Effect Tool) :=
          [.write ("Successfully loaded " ++ toString tools.length
                   ++ " tools from Scope3 API\n"),
           .mkAgentE model tools,
           .write "\n🤖 Scope3 Agent Ready!\n",
           .write "You can now interact with your Scope3 Campaign API data.\n",
           .write "Type 'quit', 'exit', or 'bye' to end the session.\n\n"]
        let r := runLoop Tool w.trace
        (pre ++ post ++ r.1, .finished r.2)

/-- Effect classifiers used by the invariant claims. -/
def Effect.isWrite (Tool : Type) : Effect Tool → Bool
  | .write _ => true
  | _ => false

def Effect.isInvoke (Tool : Type) : Effect Tool → Bool
  | .invoke _ => true
  | _ => false

def Effect.isGetTools (Tool : Type) : Effect Tool → Bool
  | .getTools => true
  | _ => false

def Effect.isMkClient (Tool : Type) : Effect Tool → Bool
  | .mkClientE _ => true
  | _ => false

def Effect.isMkModel (Tool : Type) : Effect Tool → Bool
  | .mkModelE _ => true
  | _ => false

def Effect.isMkAgent (Tool : Type) : Effect Tool → Bool
  | .mkAgentE _ _ => true
  | _ => false

/-- A farewell print: `print("Goodbye!")` (line 88) writes
`"Goodbye!\n"`, `print("\nGoodbye!")` (line 99) writes `"\nGoodbye!\n"`. -/
def Effect.isFarewell (Tool : Type) : Effect Tool → Bool
  | .write s => s == "Goodbye!\n" || s == "\nGoodbye!\n"
  | _ => false

/-- An agent-reply print: the only `"Agent: "` output in the program is
`print(f"\nAgent: {ai_message}\n")` (line 96), which always starts with
`"\nAgent: "`. -/
def Effect.isAgentWrite (Tool : Type) : Effect Tool → Bool
  | .write s => "\nAgent: ".data.isPrefixOf s.data
  | _ => false

/-- A setup effect: construction of the client, the model, or the agent,
or the one-time tool discovery — everything `main` does before the loop
and the loop must never redo. -/
def Effect.isSetup (Tool : Type) : Effect Tool → Bool
  | .write _ => false
  | .invoke _ => false
  | _ => true

/-! Helper lemmas shared by several claims. -/

/-- Every loop iteration begins by writing the input prompt. -/
theorem runTurn_head_prompt (Tool : Type) (ev : InputEvent × AgentOutcome) :
    ((runTurn Tool ev).1).head? = some (.write "You: ") := by
  obtain ⟨ie, ao⟩ := ev
  cases ie with
  | interrupt => simp [runTurn]
  | eof => simp [runTurn]
  | line s =>
    by_cases h : lower s ∈ exit_keywords
    · simp [runTurn, h]
    · cases ao with
      | reply msgs => cases hm : msgs.getLast? <;> simp [runTurn, h, hm]
      | exc d => simp [runTurn, h]
      | interrupt => simp [runTurn, h]

/-- A loop iteration only writes to stdout or invokes the agent; it never
performs a setup effect (client, model, or agent construction, or tool
discovery). -/
theorem runTurn_no_setup (Tool : Type) (ev : InputEvent × AgentOutcome) :
    ∀ e ∈ (runTurn Tool ev).1, Effect.isSetup Tool e = false := by
  obtain ⟨ie, ao⟩ := ev
  intro e he
  cases ie with
  | interrupt =>
    simp [runTurn] at he
    rcases he with rfl | rfl <;> rfl
  | eof =>
    simp [runTurn] at he
    rcases he with rfl | rfl | rfl <;> rfl
  | line s =>
    by_cases h : lower s ∈ exit_keywords
    · simp [runTurn, h] at he
      rcases he with rfl | rfl <;> rfl
    · cases ao with
      | reply msgs =>
        cases hm : msgs.getLast? with
        | some m =>
          simp [runTurn, h, hm] at he
          rcases he with rfl | rfl | rfl <;> rfl
        | none =>
          simp [runTurn, h, hm] at he
          rcases he with rfl | rfl | rfl | rfl <;> rfl
      | exc d =>
        simp [runTurn, h] at he
        rcases he with rfl | rfl | rfl | rfl <;> rfl
      | interrupt =>
        simp [runTurn, h] at he
        rcases he with rfl | rfl | rfl <;> rfl

/-- No setup effect ever occurs inside the loop. -/
theorem runLoop_no_setup (Tool : Type) (tr : List (InputEvent × AgentOutcome)) :
    ∀ e ∈ (runLoop Tool tr).1, Effect.isSetup Tool e = false := by
  induction tr with
  | nil => simp [runLoop]
  | cons ev rest ih =>
    intro e he
    rw [runLoop] at he
    by_cases hc : (runTurn Tool ev).2
    · simp only [hc, if_true, List.mem_append] at he
      rcases he with he | he
      · exact runTurn_no_setup Tool ev e he
      · exact ih e he
    · simp only [hc, if_false, Bool.false_eq_true] at he
      exact runTurn_no_setup Tool ev e he

/-! Claim theorems. -/

/-- C1 counterexample: the claim quantifies over inputs whose *trimmed*,
lowercased form is an exit keyword.  The input `" quit"` (leading space)
has trimmed lowercased form `"quit"`, yet the code (line 87) lowercases
without trimming, so the loop does not terminate, prints no farewell, and
does issue an agent invocation for that input. -/
theorem C1_counterexample :
    lower (strip " quit") ∈ exit_keywords ∧
    runTurn Unit (.line " quit", .reply [⟨"ok"⟩]) =
      ([.write "You: ", .invoke " quit",
        .write ("\nAgent: " ++ "ok" ++ "\n\n")], true) := by
  constructor
  · decide
  · decide

/-- C1 (amended): for every operator input whose *lowercased, untrimmed*
form equals one of the exit keywords, the turn prints exactly the prompt
and the farewell, terminates the loop, and issues no agent invocation;
moreover a turn terminates the loop only on such an input or on an
interrupt (the only normal, non-interrupt termination path). -/
theorem C1_exit_keywords_amended (Tool : Type) (s : String) (ao : AgentOutcome)
    (h : lower s ∈ exit_keywords) :
    runTurn Tool (.line s, ao) =
      ([.write "You: ", .write "Goodbye!\n"], false) ∧
    (∀ p : String, Effect.invoke p ∉ (runTurn Tool (.line s, ao)).1) ∧
    (∀ ev : InputEvent × AgentOutcome, (runTurn Tool ev).2 = false →
      ev.1 = InputEvent.interrupt ∨ ev.2 = AgentOutcome.interrupt ∨
        ∃ t, ev.1 = InputEvent.line t ∧ lower t ∈ exit_keywords) := by
  refine ⟨by simp [runTurn, h], ?_, ?_⟩
  · intro p hp
    simp [runTurn, h] at hp
  · intro ev hev
    obtain ⟨ie, ao2⟩ := ev
    cases ie with
    | interrupt => exact Or.inl rfl
    | eof => simp [runTurn] at hev
    | line t =>
      by_cases ht : lower t ∈ exit_keywords
      · exact Or.inr (Or.inr ⟨t, rfl, ht⟩)
      · cases ao2 with
        | reply msgs =>
          cases hm : msgs.getLast? with
          | some m => simp [runTurn, ht, hm] at hev
          | none => simp [runTurn, ht, hm] at hev
        | exc d => simp [runTurn, ht] at hev
        | interrupt => exact Or.inr (Or.inl rfl)

/-- Witness for the amended C1 at the concrete input `"QUIT"`. -/
theorem C1_exit_keywords_amended_witness :
    runTurn Unit (.line "QUIT", .reply [⟨"x"⟩]) =
      ([.write "You: ", .write "Goodbye!\n"], false) :=
  (C1_exit_keywords_amended Unit "QUIT" (.reply [⟨"x"⟩]) (by decide)).1

/-- C2: whenever at least one of the two startup credentials is absent or
empty, `main` ends in the early `return`, every effect it performs is a
plain stdout write (so it constructs no client, no model, no agent, does
no tool discovery and no agent invocation), and the writes are exactly
the two diagnostic lines naming the missing credential — the Scope3 one
when it is missing, otherwise the Anthropic one. -/
theorem C2_missing_credentials (Tool : Type) (env : String → Option String)
    (w : World Tool)
    (h : falsy (env "SCOPE3_API_KEY") = true ∨
         falsy (env "ANTHROPIC_API_KEY") = true) :
    (main Tool env w).2 = MainOutcome.earlyReturn ∧
    (∀ e ∈ (main Tool env w).1, Effect.isWrite Tool e = true) ∧
    (falsy (env "SCOPE3_API_KEY") = true →
      (main Tool env w).1 =
        [.write "Error: SCOPE3_API_KEY not found in .env file\n",
         .write "Please add your Scope3 API key to the .env file\n"]) ∧
    (falsy (env "SCOPE3_API_KEY") = false →
      falsy (env "ANTHROPIC_API_KEY") = true →
      (main Tool env w).1 =
        [.write "Error: ANTHROPIC_API_KEY not found in .env file\n",
         .write "Please add your Anthropic API key to the .env file\n"]) := by
  by_cases hs : falsy (env "SCOPE3_API_KEY") = true
  · refine ⟨?_, ?_, ?_, ?_⟩ <;> simp [main, hs, Effect.isWrite]
  · rw [Bool.not_eq_true] at hs
    have ha : falsy (env "ANTHROPIC_API_KEY") = true := by
      rcases h with h | h
      · rw [hs] at h; exact absurd h (by simp)
      · exact h
    refine ⟨?_, ?_, ?_, ?_⟩ <;> simp [main, hs, ha, Effect.isWrite]

/-- Witness for C2 with both credentials absent. -/
theorem C2_missing_credentials_witness :
    (main Unit (fun _ => none) ⟨.ok [], []⟩).2 =
      MainOutcome.earlyReturn :=
  (C2_missing_credentials Unit (fun _ => none) ⟨.ok [], []⟩
    (Or.inl (by decide))).1

/-- C3: when a turn reaches the agent (input is no exit keyword) and the
invocation raises a generic exception with description `d`, the turn
prints a diagnostic containing `d` plus the retry hint and the loop
continues: the remaining trace is processed unchanged after it. -/
theorem C3_agent_exception (Tool : Type) (s d : String)
    (rest : List (InputEvent × AgentOutcome))
    (h : lower s ∉ exit_keywords) :
    runTurn Tool (.line s, .exc d) =
      ([.write "You: ", .invoke s, .write ("\nError: " ++ d ++ "\n"),
        .write "Please try again or type 'quit' to exit.\n\n"], true) ∧
    runLoop Tool ((.line s, .exc d) :: rest) =
      ((runTurn Tool (.line s, .exc d)).1
         ++ (runLoop Tool rest).1,
       (runLoop Tool rest).2) := by
  have h1 : runTurn Tool (.line s, .exc d) =
      ([.write "You: ", .invoke s, .write ("\nError: " ++ d ++ "\n"),
        .write "Please try again or type 'quit' to exit.\n\n"], true) := by
    simp [runTurn, h]
  exact ⟨h1, by simp [runLoop, h1]⟩

/-- Witness for C3 at input `"hello"` and exception description `"boom"`. -/
theorem C3_agent_exception_witness :
    runTurn Unit (.line "hello", .exc "boom") =
      ([.write "You: ", .invoke "hello",
        .write ("\nError: " ++ "boom" ++ "\n"),
        .write "Please try again or type 'quit' to exit.\n\n"], true) :=
  (C3_agent_exception Unit "hello" "boom" [] (by decide)).1

/-- C4: when a turn reaches the agent and the reply carries a message
sequence with last message `m`, the turn invokes the agent with the raw
input and prints exactly `"\nAgent: " ++ m.content ++ "\n\n"` — a line
`Agent: <text>` followed by a blank line — and the loop continues; every
iteration (in particular the next one) begins by writing the prompt
`"You: "`. -/
theorem C4_reply_framing (Tool : Type) (s : String) (msgs : List Message)
    (m : Message)
    (h1 : lower s ∉ exit_keywords) (h2 : msgs.getLast? = some m) :
    runTurn Tool (.line s, .reply msgs) =
      ([.write "You: ", .invoke s,
        .write ("\nAgent: " ++ m.content ++ "\n\n")], true) ∧
    (∀ ev : InputEvent × AgentOutcome,
      ((runTurn Tool ev).1).head? = some (.write "You: ")) :=
  ⟨by simp [runTurn, h1, h2], fun ev => runTurn_head_prompt Tool ev⟩

/-- Witness for C4: the scenario of spec section 8. -/
theorem C4_reply_framing_witness :
    runTurn Unit (.line "list my campaigns",
        .reply [⟨"You have 3 active campaigns."⟩]) =
      ([.write "You: ", .invoke "list my campaigns",
        .write ("\nAgent: " ++ "You have 3 active campaigns." ++ "\n\n")],
       true) :=
  (C4_reply_framing Unit "list my campaigns"
    [⟨"You have 3 active campaigns."⟩] ⟨"You have 3 active campaigns."⟩
    (by decide) rfl).1

/-- C5: with both credentials present and tool discovery returning
`tools`, the startup message reports exactly `tools.length`, and agent
construction receives that very list, unmodified. -/
theorem C5_tool_count (Tool : Type) (env : String → Option String)
    (w : World Tool) (tools : List Tool)
    (h1 : falsy (env "SCOPE3_API_KEY") = false)
    (h2 : falsy (env "ANTHROPIC_API_KEY") = false)
    (h3 : w.tools = .ok tools) :
    Effect.write ("Successfully loaded " ++ toString tools.length
        ++ " tools from Scope3 API\n") ∈ (main Tool env w).1 ∧
    Effect.mkAgentE (mkClaudeModel ((env "ANTHROPIC_API_KEY").getD "")) tools
      ∈ (main Tool env w).1 := by
  constructor <;> simp [main, h1, h2, h3]

/-- Witness for C5 with two tools. -/
theorem C5_tool_count_witness :
    Effect.write ("Successfully loaded "
        ++ toString ([(), ()] : List Unit).length
        ++ " tools from Scope3 API\n")
      ∈ (main Unit (fun _ => some "k") ⟨.ok [(), ()], []⟩).1 :=
  (C5_tool_count Unit (fun _ => some "k") ⟨.ok [(), ()], []⟩ [(), ()]
    (by decide) (by decide) rfl).1

/-- C6: with both credentials present, a failing tool-discovery call
propagates unhandled out of `main`; the effects stop at the discovery
attempt — no agent invocation, and the input prompt is never written, so
no input is read. -/
theorem C6_discovery_failure (Tool : Type) (env : String → Option String)
    (w : World Tool) (d : String)
    (h1 : falsy (env "SCOPE3_API_KEY") = false)
    (h2 : falsy (env "ANTHROPIC_API_KEY") = false)
    (h3 : w.tools = .error d) :
    (main Tool env w).2 = MainOutcome.unhandled d ∧
    (main Tool env w).1 =
      [.write "Connecting to Scope3 Campaign API...\n",
       .mkClientE (mkScope3Client ((env "SCOPE3_API_KEY").getD "")),
       .mkModelE (mkClaudeModel ((env "ANTHROPIC_API_KEY").getD "")),
       .getTools] ∧
    (∀ p : String, Effect.invoke p ∉ (main Tool env w).1) ∧
    Effect.write "You: " ∉ (main Tool env w).1 := by
  refine ⟨?_, ?_, ?_, ?_⟩ <;> simp [main, h1, h2, h3]

/-- Witness for C6 with the discovery call failing. -/
theorem C6_discovery_failure_witness :
    (main Unit (fun _ => some "k")
        ⟨.error "connection refused", []⟩).2 =
      MainOutcome.unhandled "connection refused" :=
  (C6_discovery_failure Unit (fun _ => some "k") ⟨.error "connection refused", []⟩
    "connection refused" (by decide) (by decide) rfl).1

/-- C7: an interrupt while blocked on input, or while awaiting the agent
on a non-exit input, terminates the loop immediately; the effects contain
exactly one farewell write and no agent-reply (`Agent:`) write. -/
theorem C7_interrupt (Tool : Type) (ao : AgentOutcome) (s : String)
    (rest : List (InputEvent × AgentOutcome))
    (h : lower s ∉ exit_keywords) :
    runLoop Tool ((.interrupt, ao) :: rest) =
      ([.write "You: ", .write "\nGoodbye!\n"], .terminated) ∧
    runLoop Tool ((.line s, .interrupt) :: rest) =
      ([.write "You: ", .invoke s, .write "\nGoodbye!\n"], .terminated) ∧
    List.countP (Effect.isFarewell Tool)
      (runLoop Tool ((.interrupt, ao) :: rest)).1 = 1 ∧
    List.countP (Effect.isFarewell Tool)
      (runLoop Tool ((.line s, .interrupt) :: rest)).1 = 1 ∧
    (∀ e ∈ (runLoop Tool ((.interrupt, ao) :: rest)).1,
      Effect.isAgentWrite Tool e = false) ∧
    (∀ e ∈ (runLoop Tool ((.line s, .interrupt) :: rest)).1,
      Effect.isAgentWrite Tool e = false) := by
  have e1 : runLoop Tool ((.interrupt, ao) :: rest) =
      ([.write "You: ", .write "\nGoodbye!\n"], .terminated) := by
    simp [runLoop, runTurn]
  have e2 : runLoop Tool ((.line s, .interrupt) :: rest) =
      ([.write "You: ", .invoke s, .write "\nGoodbye!\n"], .terminated) := by
    simp [runLoop, runTurn, h]
  refine ⟨e1, e2, ?_, ?_, ?_, ?_⟩
  · rw [e1]; simp +decide [List.countP_cons, Effect.isFarewell]
  · rw [e2]; simp +decide [List.countP_cons, Effect.isFarewell]
  · rw [e1]
    intro e he
    simp at he
    rcases he with rfl | rfl <;> simp +decide [Effect.isAgentWrite]
  · rw [e2]
    intro e he
    simp at he
    rcases he with rfl | rfl | rfl <;> simp +decide [Effect.isAgentWrite]

/-- Witness for C7: an interrupt on the first blocked read. -/
theorem C7_interrupt_witness :
    runLoop Unit [(.interrupt, .reply [])] =
      ([.write "You: ", .write "\nGoodbye!\n"], .terminated) :=
  (C7_interrupt Unit (.reply []) "hi" [] (by decide)).1

/-- C8: the constructed objects are fixed for the session — the loop body
never performs a setup effect, and over a whole run of `main` each of
tool discovery, client construction, model construction and agent
construction happens at most once (exactly once on the successful path,
always before the loop). -/
theorem C8_session_objects_fixed (Tool : Type) (env : String → Option String)
    (w : World Tool) (tr : List (InputEvent × AgentOutcome)) :
    (∀ e ∈ (runLoop Tool tr).1, Effect.isSetup Tool e = false) ∧
    List.countP (Effect.isGetTools Tool) (main Tool env w).1 ≤ 1 ∧
    List.countP (Effect.isMkClient Tool) (main Tool env w).1 ≤ 1 ∧
    List.countP (Effect.isMkModel Tool) (main Tool env w).1 ≤ 1 ∧
    List.countP (Effect.isMkAgent Tool) (main Tool env w).1 ≤ 1 := by
  have hz : ∀ q : Effect Tool → Bool,
      (∀ e : Effect Tool, q e = true → Effect.isSetup Tool e = true) →
      List.countP q (runLoop Tool w.trace).1 = 0 := by
    intro q hq
    rw [List.countP_eq_zero]
    intro e he hqe
    have h1 := runLoop_no_setup Tool w.trace e he
    rw [hq e hqe] at h1
    exact absurd h1 (by simp)
  have hgt : ∀ e : Effect Tool, Effect.isGetTools Tool e = true →
      Effect.isSetup Tool e = true := by
    intro e; cases e <;> simp [Effect.isGetTools, Effect.isSetup]
  have hmc : ∀ e : Effect Tool, Effect.isMkClient Tool e = true →
      Effect.isSetup Tool e = true := by
    intro e; cases e <;> simp [Effect.isMkClient, Effect.isSetup]
  have hmm : ∀ e : Effect Tool, Effect.isMkModel Tool e = true →
      Effect.isSetup Tool e = true := by
    intro e; cases e <;> simp [Effect.isMkModel, Effect.isSetup]
  have hma : ∀ e : Effect Tool, Effect.isMkAgent Tool e = true →
      Effect.isSetup Tool e = true := by
    intro e; cases e <;> simp [Effect.isMkAgent, Effect.isSetup]
  refine ⟨runLoop_no_setup Tool tr, ?_, ?_, ?_, ?_⟩ <;>
  · by_cases hs : falsy (env "SCOPE3_API_KEY") = true
    · simp [main, hs, List.countP_cons, Effect.isGetTools, Effect.isMkClient,
        Effect.isMkModel, Effect.isMkAgent]
    · rw [Bool.not_eq_true] at hs
      by_cases ha : falsy (env "ANTHROPIC_API_KEY") = true
      · simp [main, hs, ha, List.countP_cons, Effect.isGetTools,
          Effect.isMkClient, Effect.isMkModel, Effect.isMkAgent]
      · rw [Bool.not_eq_true] at ha
        rcases hw : w.tools with d | tools <;>
          simp [main, hs, ha, hw, List.countP_append, List.countP_cons,
            Effect.isGetTools, Effect.isMkClient, Effect.isMkModel,
            Effect.isMkAgent, hz _ hgt, hz _ hmc, hz _ hmm, hz _ hma]

/-- C9: with both credentials present, `main` constructs the client from
exactly one named endpoint (`scope3`) with streamable-http transport, the
fixed URL, and a single bearer Authorization header built from the Scope3
credential; and constructs the model with the fixed identifier,
temperature 0 and a 4096-token output budget. -/
theorem C9_construction_config (Tool : Type) (env : String → Option String)
    (w : World Tool)
    (h1 : falsy (env "SCOPE3_API_KEY") = false)
    (h2 : falsy (env "ANTHROPIC_API_KEY") = false) :
    Effect.mkClientE (mkScope3Client ((env "SCOPE3_API_KEY").getD ""))
      ∈ (main Tool env w).1 ∧
    (mkScope3Client ((env "SCOPE3_API_KEY").getD "")).servers =
      [("scope3",
        { transport := "streamable_http"
          url := "https://api.agentic.scope3.com/mcp"
          headers := [("Authorization",
            "Bearer " ++ (env "SCOPE3_API_KEY").getD "")] })] ∧
    Effect.mkModelE (mkClaudeModel ((env "ANTHROPIC_API_KEY").getD ""))
      ∈ (main Tool env w).1 ∧
    mkClaudeModel ((env "ANTHROPIC_API_KEY").getD "") =
      { model := "claude-3-5-sonnet-20241022"
        anthropic_api_key := (env "ANTHROPIC_API_KEY").getD ""
        temperature := 0
        max_tokens := 4096 } := by
  rcases hw : w.tools with d | tools <;>
    exact ⟨by simp [main, h1, h2, hw], rfl, by simp [main, h1, h2, hw], rfl⟩

/-- Witness for C9 with present credentials. -/
theorem C9_construction_config_witness :
    mkClaudeModel ((((fun _ => some "k") : String → Option String)
        "ANTHROPIC_API_KEY").getD "") =
      { model := "claude-3-5-sonnet-20241022"
        anthropic_api_key :=
          (((fun _ => some "k") : String → Option String)
            "ANTHROPIC_API_KEY").getD ""
        temperature := 0
        max_tokens := 4096 } :=
  (C9_construction_config Unit (fun _ => some "k")
    (⟨.ok [], []⟩ : World Unit) (by decide) (by decide)).2.2.2

/-- C10: an end of file on standard input is an `EOFError`, caught by the
generic handler: the turn prints the diagnostic plus the retry hint and
the loop goes on to the rest of the trace; in particular a trace of
nothing but EOF events never terminates the loop. -/
theorem C10_eof_recovery (Tool : Type) (ao : AgentOutcome)
    (rest : List (InputEvent × AgentOutcome)) :
    runLoop Tool ((.eof, ao) :: rest) =
      ([.write "You: ", .write ("\nError: " ++ eofMessage ++ "\n"),
        .write "Please try again or type 'quit' to exit.\n\n"]
         ++ (runLoop Tool rest).1,
       (runLoop Tool rest).2) ∧
    (∀ n : Nat,
      (runLoop Tool (List.replicate n (.eof, ao))).2 =
        LoopStatus.running) := by
  constructor
  · simp [runLoop, runTurn]
  · intro n
    induction n with
    | zero => simp [runLoop]
    | succ k ih => simp [List.replicate_succ, runLoop, runTurn, ih]

end Boktest
